import Mathlib

/-!
Shallow embedding of `src/index.js` of the very-axios repository: a thin
wrapper class around an HTTP client that merges configuration, installs
request/response interceptors (loading callbacks, localized error messages,
tip rendering, per-status error handlers) and exposes verb methods.

Side-effecting caller-supplied callbacks (tip function, loading handlers,
per-status error handlers) are modelled as opaque events recorded in an
`Effect` trace, in the order the source invokes them.  Promise settlement
is modelled by an `Outcome` value with first-settle-wins semantics, exactly
mirroring the `new Promise` executor in the source.
-/

set_option autoImplicit false

namespace VeryAxiosModel

/-- Dynamic JavaScript values as far as the wrapper inspects them:
`undefined`, `null`, booleans, (integer) numbers, strings and plain
objects given by their field list. -/
inductive JSValue where
  | vUndefined
  | vNull
  | vBool (b : Bool)
  | vNum (n : Int)
  | vStr (s : String)
  | vObj (fields : List (String × JSValue))
  deriving Repr

/-- Structural decidable equality for `JSValue` (the derived handler does not
support the nested `List` occurrence on this toolchain). -/
def JSValue.beq : JSValue → JSValue → Bool
  | .vUndefined, .vUndefined => true
  | .vNull, .vNull => true
  | .vBool a, .vBool b => a == b
  | .vNum a, .vNum b => a == b
  | .vStr a, .vStr b => a == b
  | .vObj a, .vObj b => beqFields a b
  | _, _ => false
where
  beqFields : List (String × JSValue) → List (String × JSValue) → Bool
  | [], [] => true
  | (k₁, v₁) :: t₁, (k₂, v₂) :: t₂ => k₁ == k₂ && JSValue.beq v₁ v₂ && beqFields t₁ t₂
  | _, _ => false

instance : BEq JSValue := ⟨JSValue.beq⟩

theorem JSValue.beq_refl : ∀ v : JSValue, JSValue.beq v v = true :=
  fun v =>
    match v with
    | .vUndefined | .vNull => rfl
    | .vBool b => by simp [JSValue.beq]
    | .vNum n => by simp [JSValue.beq]
    | .vStr s => by simp [JSValue.beq]
    | .vObj fields => by simpa [JSValue.beq] using beqFields_refl fields
where
  beqFields_refl : ∀ l : List (String × JSValue), JSValue.beq.beqFields l l = true
  | [] => rfl
  | (k, v) :: t => by
      simp [JSValue.beq.beqFields, JSValue.beq_refl v, beqFields_refl t]

theorem JSValue.eq_of_beq : ∀ {a b : JSValue}, JSValue.beq a b = true → a = b
  | .vUndefined, .vUndefined, _ => rfl
  | .vNull, .vNull, _ => rfl
  | .vBool _, .vBool _, h => by simpa [JSValue.beq] using h
  | .vNum _, .vNum _, h => by simpa [JSValue.beq] using h
  | .vStr _, .vStr _, h => by simpa [JSValue.beq] using h
  | .vObj a, .vObj b, h => by
      have : a = b := eqFields (by simpa [JSValue.beq] using h)
      simp [this]
where
  eqFields : ∀ {a b : List (String × JSValue)}, JSValue.beq.beqFields a b = true → a = b
  | [], [], _ => rfl
  | (k₁, v₁) :: t₁, (k₂, v₂) :: t₂, h => by
      simp only [JSValue.beq.beqFields, Bool.and_eq_true, beq_iff_eq] at h
      obtain ⟨⟨hk, hv⟩, ht⟩ := h
      have h₁ : v₁ = v₂ := JSValue.eq_of_beq hv
      have h₂ : t₁ = t₂ := eqFields ht
      simp [hk, h₁, h₂]

instance : LawfulBEq JSValue where
  eq_of_beq := JSValue.eq_of_beq
  rfl := JSValue.beq_refl _

instance : DecidableEq JSValue := fun a b =>
  decidable_of_iff (JSValue.beq a b = true) (by
    constructor
    · exact JSValue.eq_of_beq
    · intro h; subst h; exact JSValue.beq_refl a)

/-- JavaScript truthiness of the values in our domain (`NaN` does not arise
because numbers are modelled as integers). -/
def truthy : JSValue → Bool
  | .vUndefined => false
  | .vNull => false
  | .vBool b => b
  | .vNum n => n != 0
  | .vStr s => s != ""
  | .vObj _ => true

/-- JavaScript `String(x)` conversion on our value domain. -/
def jsToString : JSValue → String
  | .vUndefined => "undefined"
  | .vNull => "null"
  | .vBool b => if b then "true" else "false"
  | .vNum n => toString n
  | .vStr s => s
  | .vObj _ => "[object Object]"

/-- JavaScript property read `v[key]`: on `undefined`/`null` it throws
(`none`); on an object it yields the field value, or `undefined` when the
field is absent; on other primitives these property names are absent, so it
yields `undefined`. -/
def getMember : JSValue → String → Option JSValue
  | .vUndefined, _ => none
  | .vNull, _ => none
  | .vObj fields, key => some ((fields.lookup key).getD .vUndefined)
  | _, _ => some .vUndefined

/-- The two language tags present in `ERROR_MESSAGE_MAPS` (`this.lang` is
restricted to these keys; any other value would make the interceptors throw
on `ERROR_MESSAGE_MAPS[this.lang].DEFAULT`). -/
inductive Lang where
  | zhCN
  | en
  deriving DecidableEq, Repr

/-- One per-language entry of `ERROR_MESSAGE_MAPS`: the `DEFAULT` and
`OFFLINE` keys plus the numeric HTTP status-code keys in source order. -/
structure ErrMsgMap where
  DEFAULT : String
  OFFLINE : String
  codes : List (Int × String)
  deriving Repr

/-- `ERROR_MESSAGE_MAPS` from `src/index.js` lines 3-32, verbatim. -/
def ERROR_MESSAGE_MAPS : Lang → ErrMsgMap
  | .zhCN =>
    { DEFAULT := "接口请求失败"
      OFFLINE := "网络连接断开"
      codes :=
        [(400, "请求错误"),
         (401, "未授权，请确认是否登录"),
         (403, "无权限，禁止访问"),
         (404, "接口或资源不存在"),
         (405, "请求方式不允许"),
         (413, "资源过大"),
         (414, "URI过长"),
         (500, "服务器内部错误"),
         (502, "网关错误"),
         (504, "网关超时")] }
  | .en =>
    { DEFAULT := "Request Failed"
      OFFLINE := "Network is Offline"
      codes :=
        [(400, "Bad Request"),
         (401, "Unauthorized"),
         (403, "Forbidden"),
         (404, "Not Found"),
         (405, "Method Not Allowed"),
         (413, "Payload Too Large"),
         (414, "URI Too Long"),
         (500, "Internal Server Error"),
         (502, "Bad Gateway"),
         (504, "Gateway Timeout")] }

/-- A constructor-option slot that is expected to hold a function:
`missing` is `undefined`, `noopFn` is the built-in default `() => \x7b\x7d`,
`userFn` is a caller-supplied function, `notFunc v` is a caller-supplied
non-function value `v`. -/
inductive FnSlot where
  | missing
  | noopFn
  | userFn
  | notFunc (v : JSValue)
  deriving DecidableEq, Repr

/-- JavaScript truthiness of a function-slot value (functions are truthy). -/
def FnSlot.truthySlot : FnSlot → Bool
  | .missing => false
  | .noopFn => true
  | .userFn => true
  | .notFunc v => truthy v

/-- `typeof slot === "function"`. -/
def FnSlot.isFunction : FnSlot → Bool
  | .noopFn => true
  | .userFn => true
  | _ => false

/-- An injected accessor function over a response body: the built-in
defaults read one field (`response => response.<name>`); `custom` is an
arbitrary caller-supplied function (`none` models a throw). -/
inductive Accessor where
  | field (name : String)
  | custom (f : JSValue → Option JSValue)

/-- Apply an accessor to a response body. -/
def Accessor.apply : Accessor → JSValue → Option JSValue
  | .field name, v => getMember v name
  | .custom f, v => f v

/-- The first constructor parameter of `VeryAxios` with its destructuring
defaults (`src/index.js` lines 35-50).  `errorHandlers` maps the property
key (a string, since JavaScript stringifies computed keys) to an opaque
handler identity; `tip` is the documented boolean toggle. -/
structure Options where
  tip : Bool := true
  tipFn : FnSlot := .missing
  errorHandlers : List (String × Nat) := []
  lang : Lang := .zhCN
  loadingHandler : FnSlot := .noopFn
  loadingCancelHanlder : FnSlot := .noopFn
  getResponseStatus : Accessor := .field "errno"
  getResponseMessage : Accessor := .field "errmsg"
  getResponseData : Accessor := .field "data"

/-- `this.defaultAxiosConfig` (`src/index.js` lines 54-60). -/
def defaultAxiosConfig : List (String × JSValue) :=
  [("timeout", .vNum 20000),
   ("responseType", .vStr "json"),
   ("headers", .vObj [("content-type", .vStr "application/json")])]

/-- The object-spread merge `\x7b ...a, ...b \x7d` of two configuration
objects, modelled up to key order: an entry of `a` survives exactly when `b`
has no entry for its key, so lookups see the value from `b` when `b` has the
key and the value from `a` otherwise. -/
def spreadMerge (a b : List (String × JSValue)) : List (String × JSValue) :=
  a.filter (fun kv => (b.lookup kv.1).isNone) ++ b

/-- The state a constructed `VeryAxios` instance carries (the fields the
constructor assigns on `this`, `src/index.js` lines 52-76). -/
structure VeryAxios where
  tip : Bool
  tipFn : FnSlot
  errorHandlers : List (String × Nat)
  lang : Lang
  loadingHandler : FnSlot
  loadingCancelHanlder : FnSlot
  getResponseStatus : Accessor
  getResponseMessage : Accessor
  getResponseData : Accessor
  config : List (String × JSValue)

/-- The constructor body: `this.tip = tip && tipFn && typeof tipFn ===
"function"` (truthiness of the chain, stored once), the remaining options
copied onto `this`, and `this.config = \x7b ...this.defaultAxiosConfig,
...axiosConfig \x7d`. -/
def mkVeryAxios (opts : Options) (axiosConfig : List (String × JSValue)) : VeryAxios :=
  { tip := opts.tip && opts.tipFn.truthySlot && opts.tipFn.isFunction
    tipFn := opts.tipFn
    errorHandlers := opts.errorHandlers
    lang := opts.lang
    loadingHandler := opts.loadingHandler
    loadingCancelHanlder := opts.loadingCancelHanlder
    getResponseStatus := opts.getResponseStatus
    getResponseMessage := opts.getResponseMessage
    getResponseData := opts.getResponseData
    config := spreadMerge defaultAxiosConfig axiosConfig }

/-- One observable invocation of a caller-supplied callback, recorded in
source order. -/
inductive Effect where
  | loadingStart
  | loadingStop
  | tipCall (msg : JSValue)
  | handlerCall (id : Nat)
  deriving DecidableEq, Repr

/-- How the promise produced by the response success interceptor settles
(first `resolve`/`reject` wins; a later one is ignored).  `thrown` is a
rejection with the exception raised inside the executor (an accessor
throwing). -/
inductive Outcome where
  | resolved (v : JSValue)
  | rejected (reason : JSValue)
  | thrown
  deriving DecidableEq, Repr

/-- First-settle-wins: if the executor already settled (`some o`), a later
`resolve`/`reject` call is ignored. -/
def settle : Option Outcome → Outcome → Outcome
  | some o, _ => o
  | none, o => o

/-- In both `if (errorHandler && typeof errorHandlers === "function")`
guards (`src/index.js` lines 108 and 131) the identifier `errorHandlers` is
not bound inside `interceptors()` — the constructor parameter of that name
is local to the constructor and nothing named `errorHandlers` exists at
module or global scope — and `typeof` applied to an unresolved identifier
evaluates to the string `"undefined"`. -/
def typeofErrorHandlersInInterceptors : String := "undefined"

/-- `config.veryAxiosConfig && config.veryAxiosConfig.loading`, read as a
truthiness test (`src/index.js` lines 85, 96, 118).  When the first
conjunct is truthy it is not `undefined`/`null`, so the property read never
throws. -/
def readLoadingFlag (config : List (String × JSValue)) : Bool :=
  let vac := (config.lookup "veryAxiosConfig").getD .vUndefined
  truthy vac && truthy ((getMember vac "loading").getD .vUndefined)

/-- The request interceptor (`src/index.js` lines 84-88): when the loading
flag is set and `this.loadingHandler` is a truthy function, invoke it. -/
def requestInterceptor (c : VeryAxios) (config : List (String × JSValue)) : List Effect :=
  let loading := readLoadingFlag config
  if loading && c.loadingHandler.truthySlot && c.loadingHandler.isFunction then
    [.loadingStart]
  else []

/-- The body of the `new Promise` executor in the response success
interceptor (`src/index.js` lines 98-112), given `resData = res.data`:

* `if (!res || !res.data) resolve()` — `res` is the (truthy) response
  object, so only the truthiness of `res.data` matters; note the missing
  `return`: execution continues past the early `resolve`;
* the three accessors are applied; if one throws, the executor aborts and
  the promise rejects with the exception unless it already settled;
* `message` is the accessor result when truthy, else the DEFAULT catalog
  entry for the active language;
* `String(status) !== "0"` selects the business-failure branch: tip when
  `this.tip`, then the per-status handler guard (never satisfied, see
  `typeofErrorHandlersInInterceptors`), then `reject(message)`;
* otherwise `resolve(data)`. -/
def runExecutor (c : VeryAxios) (resData : JSValue) : List Effect × Outcome :=
  let pre : Option Outcome := if !truthy resData then some (.resolved .vUndefined) else none
  match c.getResponseStatus.apply resData with
  | none => ([], settle pre .thrown)
  | some status =>
    match c.getResponseMessage.apply resData with
    | none => ([], settle pre .thrown)
    | some msgRaw =>
      let message : JSValue :=
        if truthy msgRaw then msgRaw else .vStr (ERROR_MESSAGE_MAPS c.lang).DEFAULT
      match c.getResponseData.apply resData with
      | none => ([], settle pre .thrown)
      | some data =>
        if jsToString status != "0" then
          let tipEff : List Effect := if c.tip then [.tipCall message] else []
          let errorHandler := c.errorHandlers.lookup (jsToString status)
          let handlerEff : List Effect :=
            if errorHandler.isSome && (typeofErrorHandlersInInterceptors == "function") then
              [.handlerCall (errorHandler.getD 0)]
            else []
          (tipEff ++ handlerEff, settle pre (.rejected message))
        else
          ([], settle pre (.resolved data))

/-- A transport-level success as the response interceptor sees it: the
(axios-merged) request configuration and the parsed body `res.data`. -/
structure AxiosResponse where
  config : List (String × JSValue)
  data : JSValue

/-- The response success interceptor (`src/index.js` lines 94-113): cancel
the loading indicator when the flag is set, then run the promise
executor. -/
def successInterceptor (c : VeryAxios) (res : AxiosResponse) : List Effect × Outcome :=
  let loading := readLoadingFlag res.config
  let stopEff : List Effect :=
    if loading && c.loadingCancelHanlder.truthySlot && c.loadingCancelHanlder.isFunction then
      [.loadingStop]
    else []
  let (eff, out) := runExecutor c res.data
  (stopEff ++ eff, out)

/-- A transport-level failure as the response error interceptor sees it:
`error.config`, `error.response` (present with its HTTP status code when
the server answered outside 2xx), the truthiness of `error.request`, and
`error.message`. -/
structure AxiosError where
  config : List (String × JSValue)
  response : Option Int
  request : Bool
  message : String

/-- `x || y` where `x` is a possibly-missing string (an object lookup):
the left value when present and truthy, else the right value. -/
def jsStringOr (x : Option String) (y : String) : String :=
  match x with
  | some s => if s != "" then s else y
  | none => y

/-- Message resolution of the response error interceptor (`src/index.js`
lines 121-141), with the ambient `window.navigator.onLine` passed in as
`online`: with a server response, OFFLINE when offline, else the catalog
entry for the status code or (via `||`) the raw `error.message`; with only
a request, and likewise for a setup failure, the raw `error.message`. -/
def resolveTransportErrmsg (c : VeryAxios) (online : Bool) (err : AxiosError) : String :=
  let errmsgMaps := ERROR_MESSAGE_MAPS c.lang
  match err.response with
  | some status =>
    if !online then errmsgMaps.OFFLINE
    else jsStringOr (errmsgMaps.codes.lookup status) err.message
  | none =>
    if err.request then err.message else err.message

/-- The response error interceptor (`src/index.js` lines 116-144): cancel
the loading indicator when the flag is set; with a server response, attempt
the per-status handler (the guard with the unresolved `errorHandlers`
identifier is never satisfied); finally tip the resolved message when
`this.tip`.  The function body contains no `resolve`/`reject` call and
returns no value, so it settles no outcome (`none`). -/
def errorInterceptor (c : VeryAxios) (online : Bool) (err : AxiosError) :
    List Effect × Option Outcome :=
  let loading := readLoadingFlag err.config
  let stopEff : List Effect :=
    if loading && c.loadingCancelHanlder.truthySlot && c.loadingCancelHanlder.isFunction then
      [.loadingStop]
    else []
  let handlerEff : List Effect :=
    match err.response with
    | some status =>
      let errorHandler := c.errorHandlers.lookup (jsToString (.vNum status))
      if errorHandler.isSome && (typeofErrorHandlersInInterceptors == "function") then
        [.handlerCall (errorHandler.getD 0)]
      else []
    | none => []
  let errmsg := resolveTransportErrmsg c online err
  let tipEff : List Effect := if c.tip then [.tipCall (.vStr errmsg)] else []
  (stopEff ++ handlerEff ++ tipEff, none)

/-- The axios request configuration produced by
`GET(path, param, options)` (`src/index.js` line 168): `fetch` forwards
`\x7b params: param, veryAxiosConfig: options \x7d` as the second argument
of `axios.get(url, config)`, so the per-call options reach the
interceptors under the `veryAxiosConfig` key (the third `fetch` argument
defaults to `\x7b\x7d` and is dropped by the two-argument `get`). -/
def getRequestConfig (param options : List (String × JSValue)) : List (String × JSValue) :=
  [("params", .vObj param), ("veryAxiosConfig", .vObj options)]

/-- The axios request configuration produced by `POST(path, param,
options)` (`src/index.js` line 177): `fetch` forwards `options` itself as
the third argument of `axios.post(url, data, config)`, i.e. the raw
transport configuration — nothing places it under a `veryAxiosConfig`
key. -/
def postRequestConfig (_param options : List (String × JSValue)) : List (String × JSValue) :=
  options

/-- The axios request configuration produced by `PUT(path, param, options)`
(`src/index.js` line 186): same shape as POST. -/
def putRequestConfig (_param options : List (String × JSValue)) : List (String × JSValue) :=
  options

/-- The axios request configuration produced by `DELETE(path, param,
options)` (`src/index.js` line 195): `axios.delete(url, config)` takes two
arguments, so `param` lands in the config slot and the trailing `options`
argument is discarded entirely. -/
def deleteRequestConfig (param _options : List (String × JSValue)) : List (String × JSValue) :=
  param

/-- What the underlying transport did: a 2xx response with body
`res.data`, or a failure with an optional server response (HTTP status
code), the truthiness of `error.request`, and the raw error message. -/
inductive TransportResult where
  | success (body : JSValue)
  | failure (response : Option Int) (request : Bool) (message : String)

/-- One request through the interceptor pipeline: the request interceptor
runs on the outgoing configuration, then the transport settles, then the
matching response interceptor runs with that same configuration attached
(`res.config` / `error.config`).  The trace lists callback invocations in
order; the outcome is the settlement produced by the response
interceptor. -/
def runRequest (c : VeryAxios) (reqConfig : List (String × JSValue)) (online : Bool)
    (t : TransportResult) : List Effect × Option Outcome :=
  let pre := requestInterceptor c reqConfig
  match t with
  | .success body =>
    let r := successInterceptor c ⟨reqConfig, body⟩
    (pre ++ r.1, some r.2)
  | .failure resp req msg =>
    let r := errorInterceptor c online ⟨reqConfig, resp, req, msg⟩
    (pre ++ r.1, r.2)

/-- The default options object (constructing the client with no first
argument, `new VeryAxios()`). -/
def defaultOptions : Options := {}

/-- A client constructed with all defaults. -/
def clientDefault : VeryAxios := mkVeryAxios defaultOptions []

/-- A client with a tip function, a handler registered for business status
`"1"` and for HTTP status 404 (used to exhibit the dead handler guard). -/
def clientWithHandlers : VeryAxios :=
  mkVeryAxios
    { tip := true
      tipFn := .userFn
      errorHandlers := [("1", 7), ("404", 8)] }
    []

/-- A client in language `en` with defaults otherwise. -/
def clientEn : VeryAxios := mkVeryAxios { lang := .en } []

/-! ### Helper lemmas -/

theorem FnSlot.truthySlot_of_isFunction {s : FnSlot} (h : s.isFunction = true) :
    s.truthySlot = true := by
  cases s <;> simp_all [FnSlot.isFunction, FnSlot.truthySlot]

/-- The per-status handler guard is dead code: its second conjunct compares
`"undefined"` with `"function"`. -/
theorem handlerGuard_false (h : Option Nat) :
    (h.isSome && (typeofErrorHandlersInInterceptors == "function")) = false := by
  simp [typeofErrorHandlersInInterceptors]

/-- Every effect the success-path promise executor emits is a tip call. -/
theorem runExecutor_effects (c : VeryAxios) (d : JSValue) :
    ∀ e ∈ (runExecutor c d).1, ∃ m, e = Effect.tipCall m := by
  intro e he
  simp only [runExecutor] at he
  split at he
  · simp at he
  · split at he
    · simp at he
    · split at he
      · simp at he
      · split at he
        · rw [handlerGuard_false] at he
          by_cases ht : c.tip
          · simp [ht] at he
            exact ⟨_, he⟩
          · simp [ht] at he
        · simp at he

theorem runExecutor_count_loadingStart (c : VeryAxios) (d : JSValue) :
    (runExecutor c d).1.count Effect.loadingStart = 0 := by
  rw [List.count_eq_zero]
  intro h
  obtain ⟨m, hm⟩ := runExecutor_effects c d _ h
  exact absurd hm (by simp)

theorem runExecutor_count_loadingStop (c : VeryAxios) (d : JSValue) :
    (runExecutor c d).1.count Effect.loadingStop = 0 := by
  rw [List.count_eq_zero]
  intro h
  obtain ⟨m, hm⟩ := runExecutor_effects c d _ h
  exact absurd hm (by simp)

/-- The loading flag of a GET request configuration is the truthiness of
the `loading` entry of the per-call options. -/
theorem readLoadingFlag_getRequestConfig (param options : List (String × JSValue)) :
    readLoadingFlag (getRequestConfig param options) =
      truthy ((options.lookup "loading").getD .vUndefined) := by
  simp [readLoadingFlag, getRequestConfig, getMember, truthy, List.lookup]

/-- Every string stored under a numeric key of the catalog is nonempty
(hence truthy, so the `||` fallback to the raw message never fires when a
catalog entry exists). -/
theorem errMapCodes_ne_empty (l : Lang) (status : Int) (m : String)
    (h : (ERROR_MESSAGE_MAPS l).codes.lookup status = some m) : m ≠ "" := by
  cases l <;>
    · simp only [ERROR_MESSAGE_MAPS, List.lookup] at h
      repeat' split at h
      all_goals (cases h <;> decide)

theorem lookup_append_model {β : Type} (l₁ l₂ : List (String × β)) (k : String) :
    ((l₁ ++ l₂).lookup k) = ((l₁.lookup k).or (l₂.lookup k)) := by
  induction l₁ with
  | nil => simp [List.lookup]
  | cons hd tl ih =>
    obtain ⟨k₁, v₁⟩ := hd
    cases hbeq : (k == k₁) <;> simp [List.lookup, hbeq, ih]

theorem lookup_filter_keyPred {β : Type} (p : String → Bool) (l : List (String × β))
    (k : String) :
    ((l.filter fun kv => p kv.1).lookup k) = if p k then l.lookup k else none := by
  induction l with
  | nil => simp [List.lookup]
  | cons hd tl ih =>
    obtain ⟨k₁, v₁⟩ := hd
    by_cases hk : k = k₁
    · subst hk
      cases hp : p k <;> simp [List.filter, List.lookup, hp, ih]
    · have hbeq : (k == k₁) = false := beq_eq_false_iff_ne.mpr hk
      cases hp : p k₁ <;> simp [List.filter, List.lookup, hp, hbeq, ih]

/-- The success interceptor trace is the loading-stop bookkeeping followed
by the executor trace, and its outcome is the executor outcome. -/
theorem successInterceptor_split (c : VeryAxios) (res : AxiosResponse) :
    successInterceptor c res =
      ((if readLoadingFlag res.config && c.loadingCancelHanlder.truthySlot &&
            c.loadingCancelHanlder.isFunction then [Effect.loadingStop] else []) ++
          (runExecutor c res.data).1,
        (runExecutor c res.data).2) := by
  rcases hre : runExecutor c res.data with ⟨eff, out⟩
  simp [successInterceptor, hre]

/-- The error interceptor trace is the loading-stop bookkeeping followed by
the tip (when enabled): the per-status handler branch is dead code. -/
theorem errorInterceptor_effects_eq (c : VeryAxios) (online : Bool) (err : AxiosError) :
    (errorInterceptor c online err).1 =
      (if readLoadingFlag err.config && c.loadingCancelHanlder.truthySlot &&
          c.loadingCancelHanlder.isFunction then [Effect.loadingStop] else []) ++
        (if c.tip then [Effect.tipCall (.vStr (resolveTransportErrmsg c online err))]
         else []) := by
  obtain ⟨cfg, resp, req, msg⟩ := err
  cases resp <;> simp [errorInterceptor, handlerGuard_false]

/-- Reduction of the executor on a truthy body whose business status
stringifies to `"0"`. -/
theorem runExecutor_business_success (c : VeryAxios) (d : JSValue)
    (status msgRaw data : JSValue)
    (hbody : truthy d = true)
    (hs : c.getResponseStatus.apply d = some status)
    (hm : c.getResponseMessage.apply d = some msgRaw)
    (hd : c.getResponseData.apply d = some data)
    (h0 : jsToString status = "0") :
    runExecutor c d = ([], .resolved data) := by
  simp only [runExecutor, hs, hm, hd, hbody]
  simp [h0, settle]

/-- Reduction of the executor on a truthy body whose business status does
not stringify to `"0"`: the tip fires when enabled (the handler guard never
does) and the promise rejects with the resolved message. -/
theorem runExecutor_business_failure (c : VeryAxios) (d : JSValue)
    (status msgRaw data : JSValue)
    (hbody : truthy d = true)
    (hs : c.getResponseStatus.apply d = some status)
    (hm : c.getResponseMessage.apply d = some msgRaw)
    (hd : c.getResponseData.apply d = some data)
    (hne : jsToString status ≠ "0") :
    runExecutor c d =
      ((if c.tip then
          [Effect.tipCall (if truthy msgRaw then msgRaw
            else .vStr (ERROR_MESSAGE_MAPS c.lang).DEFAULT)]
        else []),
       .rejected (if truthy msgRaw then msgRaw
         else .vStr (ERROR_MESSAGE_MAPS c.lang).DEFAULT)) := by
  simp only [runExecutor, hs, hm, hd, hbody, handlerGuard_false]
  simp [hne, settle]

/-! ### Claim theorems -/

/-- C1: the claim states that on a business failure (status not `"0"`) and
on a transport failure with a server response, the handler registered in
`errorHandlers` under that status fires exactly once.  In the code the
guard `typeof errorHandlers === "function"` (src/index.js:108 and :131)
references an identifier that is unbound in `interceptors()`, so `typeof`
yields `"undefined"` and the guard never passes: the handler never fires,
although the adjacent comment says `run relative error handler`.  This
theorem evaluates both paths at inputs with a matching registered handler:
the traces contain the single tip call with the resolved message and no
handler call. -/
theorem C1_handler_never_invoked :
    (successInterceptor clientWithHandlers
        ⟨[], .vObj [("errno", .vNum 1), ("errmsg", .vStr "boom"), ("data", .vNull)]⟩ =
      ([.tipCall (.vStr "boom")], .rejected (.vStr "boom"))) ∧
    (errorInterceptor clientWithHandlers true ⟨[], some 404, true, "raw"⟩ =
      ([.tipCall (.vStr "接口或资源不存在")], none)) ∧
    clientWithHandlers.errorHandlers.lookup "1" = some 7 ∧
    clientWithHandlers.errorHandlers.lookup "404" = some 8 := by
  refine ⟨rfl, rfl, rfl, rfl⟩

/-- C2: a 2xx response with a truthy body whose business status
stringifies to `"0"` resolves with the accessor-extracted payload, and
the trace holds no tip call and no handler call (at most the loading-stop
bookkeeping). -/
theorem C2_success_resolves_payload (c : VeryAxios) (res : AxiosResponse)
    (status msgRaw data : JSValue)
    (hbody : truthy res.data = true)
    (hs : c.getResponseStatus.apply res.data = some status)
    (hm : c.getResponseMessage.apply res.data = some msgRaw)
    (hd : c.getResponseData.apply res.data = some data)
    (h0 : jsToString status = "0") :
    (successInterceptor c res).2 = .resolved data ∧
    ∀ e ∈ (successInterceptor c res).1, e = .loadingStop := by
  have hexec := runExecutor_business_success c res.data status msgRaw data hbody hs hm hd h0
  rw [successInterceptor_split, hexec]
  refine ⟨rfl, ?_⟩
  intro e he
  simp only [List.append_nil] at he
  split at he <;> simp_all

/-- C2 witness: status `0` under the default accessors resolves with the
`data` field and an empty effect trace. -/
theorem C2_witness :
    (successInterceptor clientDefault
        ⟨[], .vObj [("errno", .vNum 0), ("errmsg", .vStr ""), ("data", .vStr "ok")]⟩).2 =
      .resolved (.vStr "ok") :=
  (C2_success_resolves_payload clientDefault
    ⟨[], .vObj [("errno", .vNum 0), ("errmsg", .vStr ""), ("data", .vStr "ok")]⟩
    (.vNum 0) (.vStr "") (.vStr "ok") rfl rfl rfl rfl (by decide)).1

/-- C3: a 2xx response with a truthy body whose business status does not
stringify to `"0"` fails with the resolved message — the accessor-extracted
message when truthy, else the DEFAULT catalog entry of the active
language — as the rejection reason. -/
theorem C3_business_failure_rejects_message (c : VeryAxios) (res : AxiosResponse)
    (status msgRaw data : JSValue)
    (hbody : truthy res.data = true)
    (hs : c.getResponseStatus.apply res.data = some status)
    (hm : c.getResponseMessage.apply res.data = some msgRaw)
    (hd : c.getResponseData.apply res.data = some data)
    (hne : jsToString status ≠ "0") :
    (successInterceptor c res).2 =
      .rejected (if truthy msgRaw then msgRaw
        else .vStr (ERROR_MESSAGE_MAPS c.lang).DEFAULT) := by
  have hexec := runExecutor_business_failure c res.data status msgRaw data hbody hs hm hd hne
  rw [successInterceptor_split, hexec]

/-- C3 witness, the spec scenario: language `zh-cn`, business status `"1"`,
message field `自定义错误` — the operation fails with exactly that
string. -/
theorem C3_witness :
    (successInterceptor clientDefault
        ⟨[], .vObj [("errno", .vStr "1"), ("errmsg", .vStr "自定义错误")]⟩).2 =
      .rejected (.vStr "自定义错误") := by
  have h := C3_business_failure_rejects_message clientDefault
    ⟨[], .vObj [("errno", .vStr "1"), ("errmsg", .vStr "自定义错误")]⟩
    (.vStr "1") (.vStr "自定义错误") .vUndefined rfl rfl rfl rfl (by decide)
  simpa using h

/-- C4: the response error interceptor settles no outcome — its body holds
no `resolve`/`reject` call and returns nothing — and every effect it emits
is either the loading-stop bookkeeping or the single tip rendering the
resolved message (fired when tipping is enabled). -/
theorem C4_transport_error_tip_only (c : VeryAxios) (online : Bool) (err : AxiosError) :
    (errorInterceptor c online err).2 = none ∧
    ((errorInterceptor c online err).1.all fun e =>
        e == Effect.loadingStop ||
          e == Effect.tipCall (.vStr (resolveTransportErrmsg c online err))) = true := by
  refine ⟨rfl, ?_⟩
  rw [errorInterceptor_effects_eq, List.all_append, Bool.and_eq_true]
  constructor <;> split <;> simp

/-- C5: transport-error message priority.  With a server response: the
OFFLINE catalog entry whenever the client is offline (whatever the status
code); otherwise the catalog entry for the numeric status code when one
exists, and the raw error message when none does.  Without a server
response — request sent with no answer, or setup-time failure — the raw
error message. -/
theorem C5_transport_message_priority (c : VeryAxios) (cfg : List (String × JSValue))
    (status : Int) (req : Bool) (msg : String) (online : Bool) :
    (resolveTransportErrmsg c false ⟨cfg, some status, req, msg⟩ =
        (ERROR_MESSAGE_MAPS c.lang).OFFLINE) ∧
    (∀ m, (ERROR_MESSAGE_MAPS c.lang).codes.lookup status = some m →
        resolveTransportErrmsg c true ⟨cfg, some status, req, msg⟩ = m) ∧
    ((ERROR_MESSAGE_MAPS c.lang).codes.lookup status = none →
        resolveTransportErrmsg c true ⟨cfg, some status, req, msg⟩ = msg) ∧
    (resolveTransportErrmsg c online ⟨cfg, none, true, msg⟩ = msg) ∧
    (resolveTransportErrmsg c online ⟨cfg, none, false, msg⟩ = msg) := by
  refine ⟨rfl, ?_, ?_, rfl, rfl⟩
  · intro m hm
    have hne := errMapCodes_ne_empty c.lang status m hm
    simp [resolveTransportErrmsg, jsStringOr, hm, hne]
  · intro hm
    simp [resolveTransportErrmsg, jsStringOr, hm]

/-- C5 witness: in language `en`, online, status 404 resolves to the
catalog entry and a status absent from the catalog (999) falls back to the
raw message. -/
theorem C5_witness :
    resolveTransportErrmsg clientEn true ⟨[], some 404, true, "boom"⟩ = "Not Found" ∧
    resolveTransportErrmsg clientEn true ⟨[], some 999, true, "boom"⟩ = "boom" :=
  ⟨(C5_transport_message_priority clientEn [] 404 true "boom" true).2.1 "Not Found" rfl,
   (C5_transport_message_priority clientEn [] 999 true "boom" true).2.2.1 rfl⟩

/-- C6: both catalog languages carry exactly the numeric keys
400, 401, 403, 404, 405, 413, 414, 500, 502 and 504 (plus the DEFAULT and
OFFLINE fields of `ErrMsgMap`), and the spec scenario holds: language
`en`, a transport error with status code 404 and no server message in the
body resolves to exactly `Not Found`.  (Immutability of the table is
inherent to the embedding: `ERROR_MESSAGE_MAPS` is a constant.) -/
theorem C6_catalog_keys_and_en404 :
    ((ERROR_MESSAGE_MAPS .zhCN).codes.map Prod.fst =
        [400, 401, 403, 404, 405, 413, 414, 500, 502, 504] ∧
      (ERROR_MESSAGE_MAPS .en).codes.map Prod.fst =
        [400, 401, 403, 404, 405, 413, 414, 500, 502, 504]) ∧
    resolveTransportErrmsg clientEn true
        ⟨[], some 404, true, "Request failed with status code 404"⟩ = "Not Found" :=
  ⟨⟨rfl, rfl⟩, rfl⟩

/-- C7: the stored transport configuration is the shallow merge of the
user configuration over the defaults: a key present in the user
configuration takes the user value; a key absent from it keeps its default
(in particular the 20000 ms timeout, the json response type and the json
content-type header survive untouched). -/
theorem C7_config_shallow_merge (opts : Options) (user : List (String × JSValue))
    (k : String) :
    (∀ v, user.lookup k = some v → (mkVeryAxios opts user).config.lookup k = some v) ∧
    (user.lookup k = none →
        (mkVeryAxios opts user).config.lookup k = defaultAxiosConfig.lookup k) := by
  constructor
  · intro v hv
    show ((spreadMerge defaultAxiosConfig user).lookup k) = some v
    rw [spreadMerge, lookup_append_model,
      lookup_filter_keyPred (fun key => (user.lookup key).isNone) defaultAxiosConfig k]
    simp [hv]
  · intro hv
    show ((spreadMerge defaultAxiosConfig user).lookup k) = defaultAxiosConfig.lookup k
    rw [spreadMerge, lookup_append_model,
      lookup_filter_keyPred (fun key => (user.lookup key).isNone) defaultAxiosConfig k]
    simp [hv]

/-- C7 witness: a user-supplied timeout of 5 wins over the default 20000,
while the untouched responseType keeps its default `json`. -/
theorem C7_witness :
    (mkVeryAxios defaultOptions [("timeout", .vNum 5)]).config.lookup "timeout" =
      some (.vNum 5) ∧
    (mkVeryAxios defaultOptions [("timeout", .vNum 5)]).config.lookup "responseType" =
      some (.vStr "json") :=
  ⟨(C7_config_shallow_merge defaultOptions [("timeout", .vNum 5)] "timeout").1
      (.vNum 5) rfl,
   ((C7_config_shallow_merge defaultOptions [("timeout", .vNum 5)] "responseType").2
      rfl).trans (by decide)⟩

/-- C8 counterexample: the claim promises the loading callbacks for every
verb method whose per-call options carry a truthy `loading` flag, but for
POST/PUT the options object is forwarded as the raw axios config (nothing
nests it under `veryAxiosConfig`) and DELETE discards it, so a request
issued as POST with options carrying `loading: true` (and likewise PUT and
DELETE, here shown on both transport outcomes) triggers neither
loading-start nor loading-stop even though both default handlers are
functions. -/
theorem C8_counterexample_post_loading_ignored :
    ((runRequest clientDefault (postRequestConfig [] [("loading", .vBool true)]) true
        (.success (.vObj [("errno", .vNum 0), ("errmsg", .vStr ""), ("data", .vNull)]))).1.count
        Effect.loadingStart = 0 ∧
      (runRequest clientDefault (postRequestConfig [] [("loading", .vBool true)]) true
        (.success (.vObj [("errno", .vNum 0), ("errmsg", .vStr ""), ("data", .vNull)]))).1.count
        Effect.loadingStop = 0) ∧
    ((runRequest clientDefault (deleteRequestConfig [] [("loading", .vBool true)]) true
        (.failure (some 500) true "raw")).1.count Effect.loadingStart = 0 ∧
      (runRequest clientDefault (deleteRequestConfig [] [("loading", .vBool true)]) true
        (.failure (some 500) true "raw")).1.count Effect.loadingStop = 0) := by
  refine ⟨⟨rfl, rfl⟩, ⟨rfl, rfl⟩⟩

/-- C8 amended: only GET nests the per-call options under the
`veryAxiosConfig` key of the axios config, so for GET requests whose
options carry a truthy `loading` flag (and with the loading callbacks
being functions, as the defaults are) the trace opens with exactly one
loading-start, and contains exactly one loading-stop, whatever the
transport outcome. -/
theorem C8_get_loading_once (c : VeryAxios) (param options : List (String × JSValue))
    (online : Bool) (t : TransportResult)
    (hl : truthy ((options.lookup "loading").getD .vUndefined) = true)
    (hstart : c.loadingHandler.isFunction = true)
    (hstop : c.loadingCancelHanlder.isFunction = true) :
    (runRequest c (getRequestConfig param options) online t).1.count Effect.loadingStart = 1 ∧
    (runRequest c (getRequestConfig param options) online t).1.count Effect.loadingStop = 1 ∧
    (runRequest c (getRequestConfig param options) online t).1.head? =
      some Effect.loadingStart := by
  have hflag : readLoadingFlag (getRequestConfig param options) = true := by
    rw [readLoadingFlag_getRequestConfig]; exact hl
  have hpre : requestInterceptor c (getRequestConfig param options) = [Effect.loadingStart] := by
    simp [requestInterceptor, hflag, hstart, FnSlot.truthySlot_of_isFunction hstart]
  cases t with
  | success body =>
    have hsplit : (successInterceptor c ⟨getRequestConfig param options, body⟩).1 =
        Effect.loadingStop :: (runExecutor c body).1 := by
      rw [successInterceptor_split]
      simp [hflag, hstop, FnSlot.truthySlot_of_isFunction hstop]
    refine ⟨?_, ?_, ?_⟩ <;>
      simp [runRequest, hpre, hsplit, runExecutor_count_loadingStart,
        runExecutor_count_loadingStop]
  | failure resp req msg =>
    have hsplit : (errorInterceptor c online ⟨getRequestConfig param options, resp, req, msg⟩).1 =
        Effect.loadingStop ::
          (if c.tip then
            [Effect.tipCall (.vStr (resolveTransportErrmsg c online
              ⟨getRequestConfig param options, resp, req, msg⟩))]
          else []) := by
      rw [errorInterceptor_effects_eq]
      simp [hflag, hstop, FnSlot.truthySlot_of_isFunction hstop]
    refine ⟨?_, ?_, ?_⟩ <;>
      · simp only [runRequest, hpre, hsplit]
        cases hc : c.tip <;> simp

/-- C8 witness for the amended claim: a GET with `loading: true` under the
default client, on a transport failure, fires loading-start first and
loading-stop exactly once. -/
theorem C8_witness :
    (runRequest clientDefault (getRequestConfig [] [("loading", .vBool true)]) true
        (.failure (some 500) true "raw")).1.count Effect.loadingStart = 1 ∧
    (runRequest clientDefault (getRequestConfig [] [("loading", .vBool true)]) true
        (.failure (some 500) true "raw")).1.count Effect.loadingStop = 1 ∧
    (runRequest clientDefault (getRequestConfig [] [("loading", .vBool true)]) true
        (.failure (some 500) true "raw")).1.head? = some Effect.loadingStart :=
  C8_get_loading_once clientDefault [] [("loading", .vBool true)] true
    (.failure (some 500) true "raw") (by decide) rfl rfl

/-- C9: the tip gate.  The constructor stores `this.tip` once, and it is
true exactly when the toggle is true and the supplied tip function is
actually a function (first conjunct).  Both failure paths then consult
only that stored boolean: the second and third conjuncts quantify over
arbitrary `VeryAxios` states — whatever the raw options were — so the
error interceptor tips the resolved message exactly once when the stored
field is true and never otherwise, and likewise the business-failure
path; their behavior provably depends on nothing but the stored field. -/
theorem C9_tip_gate_once :
    (∀ (opts : Options) (axiosConfig : List (String × JSValue)),
        (mkVeryAxios opts axiosConfig).tip = (opts.tip && opts.tipFn.isFunction)) ∧
    (∀ (c : VeryAxios) (online : Bool) (err : AxiosError),
        (errorInterceptor c online err).1.count
            (Effect.tipCall (.vStr (resolveTransportErrmsg c online err))) =
          if c.tip then 1 else 0) ∧
    (∀ (c : VeryAxios) (res : AxiosResponse) (status msgRaw data : JSValue),
        truthy res.data = true →
        c.getResponseStatus.apply res.data = some status →
        c.getResponseMessage.apply res.data = some msgRaw →
        c.getResponseData.apply res.data = some data →
        jsToString status ≠ "0" →
        (successInterceptor c res).1.count
            (Effect.tipCall (if truthy msgRaw then msgRaw
              else .vStr (ERROR_MESSAGE_MAPS c.lang).DEFAULT)) =
          if c.tip then 1 else 0) := by
  refine ⟨?_, ?_, ?_⟩
  · intro opts axiosConfig
    cases h : opts.tipFn <;>
      simp [mkVeryAxios, h, FnSlot.truthySlot, FnSlot.isFunction]
  · intro c online err
    rw [errorInterceptor_effects_eq, List.count_append]
    cases hc : c.tip <;> split <;> simp
  · intro c res status msgRaw data hbody hs hm hd hne
    rw [successInterceptor_split,
      runExecutor_business_failure c res.data status msgRaw data hbody hs hm hd hne]
    simp only [List.count_append]
    have hstop : ∀ m, List.count (Effect.tipCall m)
        (if readLoadingFlag res.config && c.loadingCancelHanlder.truthySlot &&
            c.loadingCancelHanlder.isFunction then [Effect.loadingStop] else []) = 0 := by
      intro m; split <;> simp
    rw [hstop]
    cases hc : c.tip <;> simp

/-- C9 witness: with a user tip function and the toggle on, the business
failure path tips exactly once; the gate equation instantiates at the
options of `clientWithHandlers`. -/
theorem C9_witness :
    clientWithHandlers.tip = true ∧
    (successInterceptor clientWithHandlers
        ⟨[], .vObj [("errno", .vNum 1), ("errmsg", .vStr "boom"), ("data", .vNull)]⟩).1.count
        (Effect.tipCall (.vStr "boom")) = 1 := by
  refine ⟨rfl, ?_⟩
  have h := C9_tip_gate_once.2.2 clientWithHandlers
    ⟨[], .vObj [("errno", .vNum 1), ("errmsg", .vStr "boom"), ("data", .vNull)]⟩
    (.vNum 1) (.vStr "boom") .vNull rfl rfl rfl rfl (by decide)
  simpa using h

/-- C10: the defaults of an option-less construction: language `zh-cn`,
tip toggle `true` yet the stored tip gate `false` (no tip function was
supplied), the built-in no-op loading callbacks, an empty error-handler
mapping, and the accessors reading the `errno`, `errmsg` and `data`
fields of the body. -/
theorem C10_construction_defaults (axiosConfig : List (String × JSValue)) :
    defaultOptions.lang = Lang.zhCN ∧
    defaultOptions.tip = true ∧
    (mkVeryAxios defaultOptions axiosConfig).tip = false ∧
    (mkVeryAxios defaultOptions axiosConfig).loadingHandler = FnSlot.noopFn ∧
    (mkVeryAxios defaultOptions axiosConfig).loadingCancelHanlder = FnSlot.noopFn ∧
    (mkVeryAxios defaultOptions axiosConfig).errorHandlers = [] ∧
    (mkVeryAxios defaultOptions axiosConfig).lang = Lang.zhCN ∧
    (mkVeryAxios defaultOptions axiosConfig).getResponseStatus = .field "errno" ∧
    (mkVeryAxios defaultOptions axiosConfig).getResponseMessage = .field "errmsg" ∧
    (mkVeryAxios defaultOptions axiosConfig).getResponseData = .field "data" :=
  ⟨rfl, rfl, rfl, rfl, rfl, rfl, rfl, rfl, rfl, rfl⟩

end VeryAxiosModel
